import Mathlib

/-!
Shallow embedding of `src/main.py` (a daily stock scanner).

The program fetches the S&P 500 ticker list, and for each ticker fetches two
years of daily bars, computes a 150-bar simple moving average of the close
(`SMA_150`), a 14-bar average true range (`ATR`), classifies the 5-session
trend of the moving average, and sends a Telegram photo alert whenever the
last close is within 5% of the moving average; one summary text message ends
the run.

Modelling choices:
* Prices are rationals (`ℚ`) standing for the floating-point values of the
  source; all source formulas are exact at this granularity.
* A pandas cell that can be NaN is an `Option ℚ`; `rolling(window=w).mean()`
  is a window mean that is `none` until `w` observations exist.
* The Telegram side effects are recorded as an event trace (`Event`), so the
  order of sends relative to per-symbol analyses is visible.
* Exceptions caught by the per-symbol `try/except` (lines 162-220) are
  modelled by total functions returning "no alert"; the one statement inside
  the body that can raise on otherwise well-formed data is `iloc[-6]`
  (line 186), modelled by an explicit bounds check.
-/

set_option maxRecDepth 1000000

/-- One daily bar of the fetched history (`df` rows): the columns the scanner
reads are `High`, `Low` and `Close`. -/
structure Bar where
  high : ℚ
  low : ℚ
  close : ℚ
deriving DecidableEq

/-- The `Close` column of the history. -/
def closeColumn (bars : List Bar) : List ℚ :=
  bars.map Bar.close

/-- Tail of the true-range column, given the close of the previous row.
Each cell is `max(High-Low, |High-PrevClose|, |Low-PrevClose|)`
(lines 172-175 of `src/main.py`). -/
def trColumnAux (prevClose : ℚ) : List Bar → List ℚ
  | [] => []
  | b :: rest =>
      max (b.high - b.low) (max |b.high - prevClose| |b.low - prevClose|) ::
        trColumnAux b.close rest

/-- The `TR` column (lines 172-175). At row 0 `Close.shift(1)` is NaN, so the
columns `High-PrevClose` and `Low-PrevClose` are NaN there; pandas
`DataFrame.max(axis=1)` skips NaN entries by default, hence
`TR[0] = High[0] - Low[0]`, a defined value. -/
def trColumn : List Bar → List ℚ
  | [] => []
  | b :: rest => (b.high - b.low) :: trColumnAux b.close rest

/-- `Series.rolling(window=w).mean()` at index `i` over a column with no NaN
entries: defined once `w` observations ending at `i` exist (pandas default
`min_periods = window`), and then equal to the arithmetic mean of the last
`w` entries. -/
def windowMean (xs : List ℚ) (w : ℕ) (i : ℕ) : Option ℚ :=
  if i + 1 < w ∨ xs.length ≤ i then none
  else some ((((xs.drop (i + 1 - w)).take w).sum) / (w : ℚ))

/-- `df['SMA_150'] = df['Close'].rolling(window=150).mean()` at index `i`
(line 169). -/
def smaAt (bars : List Bar) (i : ℕ) : Option ℚ :=
  windowMean (closeColumn bars) 150 i

/-- `df['ATR'] = df['TR'].rolling(window=14).mean()` at index `i`
(line 176). -/
def atrAt (bars : List Bar) (i : ℕ) : Option ℚ :=
  windowMean (trColumn bars) 14 i

/-- One row of the cleaned frame: the columns the alert logic reads. -/
structure Row where
  close : ℚ
  sma : ℚ
  atr : ℚ
deriving DecidableEq

/-- The frame after `df.dropna(subset=['SMA_150', 'ATR'])` (line 179): the
rows, in original order, at which both `SMA_150` and `ATR` are defined. -/
def indicatorRows (bars : List Bar) : List Row :=
  (List.range bars.length).filterMap fun i =>
    match smaAt bars i, atrAt bars i, (closeColumn bars).get? i with
    | some s, some a, some c => some ⟨c, s, a⟩
    | _, _, _ => none

/-- The three trend labels of lines 190-195. -/
inductive Trend where
  | up
  | down
  | flat
deriving DecidableEq

/-- The trend classifier (lines 190-195): `Up` if
`current_sma_150 > prev_sma_150 * 1.005`, else `Down` if
`current_sma_150 < prev_sma_150 * 0.995`, else `Flat`. -/
def classifyTrend (current prev : ℚ) : Trend :=
  if current > prev * (1005 / 1000) then .up
  else if current < prev * (995 / 1000) then .down
  else .flat

/-- `dist_pct = abs(current_close - current_sma_150) / current_sma_150`
(line 198). -/
def distPct (close sma : ℚ) : ℚ :=
  |close - sma| / sma

/-- The alert condition `dist_pct <= 0.05` (line 199). This is the entire
qualification decision of the program; no other indicator is consulted. -/
def qualifies (close sma : ℚ) : Bool :=
  distPct close sma ≤ 5 / 100

/-- Outcome of `yf.Ticker(ticker).history(...)` (line 164): either the
fetched history, or an exception / malformed data, which the surrounding
`except` clause turns into a skip. -/
inductive FetchResult where
  | fail
  | ok (bars : List Bar)
deriving DecidableEq

/-- The per-symbol slice of the outside world that one loop iteration
consumes: the symbol itself (numbered by scan position), its fetch outcome,
and whether the chart render (`plot_chart`, line 214) succeeds.
`get_market_cap` and `send_telegram_photo` catch their own exceptions and so
have no failure mode that reaches the loop body. -/
structure SymbolInput where
  name : ℕ
  fetch : FetchResult
  renderOk : Bool
deriving DecidableEq

/-- The `# Logic Checks` block (lines 183-216) applied to the cleaned frame.
Pandas `iloc[-6]` (line 186) raises `IndexError` when the frame has fewer
than 6 rows; the `except` clause (line 218) turns that into a skip, modelled
by the explicit length check. Returns `(counted, dispatched)`:
`counted` is whether `alerts_count` was incremented (line 200), `dispatched`
whether a photo alert was sent (line 215) — a render failure raises after
the increment but before the send. -/
def logicChecks (inp : SymbolInput) (rows : List Row) : Bool × Bool :=
  if rows = [] then (false, false)
  else if rows.length < 6 then (false, false)
  else
    match rows.get? (rows.length - 1), rows.get? (rows.length - 6) with
    | some cur, some _prev =>
        if qualifies cur.close cur.sma then (true, inp.renderOk)
        else (false, false)
    | _, _ => (false, false)

/-- One iteration of the scan loop (lines 162-220) for one symbol: fetch,
guard `df.empty or len(df) < 150` (line 165), indicators, cleanup guard
(line 180), logic checks. Any caught exception yields `(false, false)`:
no count, no alert. -/
def analyzeSymbol (inp : SymbolInput) : Bool × Bool :=
  match inp.fetch with
  | .fail => (false, false)
  | .ok bars =>
      if bars = [] ∨ bars.length < 150 then (false, false)
      else logicChecks inp (indicatorRows bars)

/-- Observable Telegram traffic and per-symbol analysis starts, in program
order. `analyze s` marks the start of symbol `s`'s loop iteration, `photo s`
the `send_telegram_photo` call for `s` (line 215), `failText` the message of
line 145, and `summaryText n` the final message of line 223 reporting
`alerts_count = n`. -/
inductive Event where
  | analyze (name : ℕ)
  | photo (name : ℕ)
  | failText
  | summaryText (alerts : ℕ)
deriving DecidableEq

/-- The events contributed by one loop iteration. -/
def symbolEvents (inp : SymbolInput) : List Event :=
  Event.analyze inp.name :: (if (analyzeSymbol inp).2 then [Event.photo inp.name] else [])

/-- The scan loop (lines 157-220), threading the `alerts_count` accumulator
(line 148, incremented at line 200): returns the event trace and the final
count. -/
def runLoop : List SymbolInput → ℕ → List Event × ℕ
  | [], n => ([], n)
  | inp :: rest, n =>
      let res := analyzeSymbol inp
      let step := runLoop rest (if res.1 then n + 1 else n)
      (symbolEvents inp ++ step.1, step.2)

/-- `get_sp500_tickers()` (lines 33-55): on a request or parsing exception it
returns the empty list; otherwise the fetched universe. -/
def get_sp500_tickers : Except Unit (List SymbolInput) → List SymbolInput
  | .error _ => []
  | .ok l => l

/-- `run_scan()` (lines 137-224), with the configuration precondition of
lines 139-141 assumed satisfied: fetch the universe; if it is empty, send
the single failure message and return (lines 144-146); otherwise run the
loop and send the single summary message (lines 222-223). -/
def runScan (fetched : Except Unit (List SymbolInput)) : List Event :=
  let tickers := get_sp500_tickers fetched
  if tickers = [] then [Event.failText]
  else
    let res := runLoop tickers 0
    res.1 ++ [Event.summaryText res.2]

/-- The number of symbols whose analysis increments `alerts_count`. -/
def countAlerts (l : List SymbolInput) : ℕ :=
  (l.filter fun inp => (analyzeSymbol inp).1).length

/-- Recognizer for photo-alert events. -/
def isPhoto : Event → Bool
  | .photo _ => true
  | _ => false

/-- Recognizer for the summary message. -/
def isSummary : Event → Bool
  | .summaryText _ => true
  | _ => false

/-- Modelled from the spec: the RSI computation of spec §4.1 is absent from
`src/main.py` (the source computes no RSI at all); this observer follows the
spec's words. Given the trailing window of bar-to-bar close differences:
split each difference into `gain = max(diff, 0)` and `loss = max(-diff, 0)`,
average each over the 14-bar window, and set `rs = avg_gain / avg_loss` and
`rsi = 100 - 100 / (1 + rs)`, with `rsi = 100` when `avg_loss = 0` (the
explicit full-strength policy, not a division fault). -/
def rsiFromDiffs (diffs : List ℚ) : ℚ :=
  let avgGain := (diffs.map fun d => max d 0).sum / 14
  let avgLoss := (diffs.map fun d => max (-d) 0).sum / 14
  if avgLoss = 0 then 100 else 100 - 100 / (1 + avgGain / avgLoss)

/-- Bar-to-bar close differences: entry `k` is `close[k+1] - close[k]`. -/
def diffList (closes : List ℚ) : List ℚ :=
  (closes.zip closes.tail).map fun p => p.2 - p.1

/-- Modelled from the spec: RSI at index `i` of a close series (absent from
`src/main.py`). Defined once 14 trailing differences ending at `i` exist,
i.e. for `14 ≤ i < length`; the window is the differences at original
indices `i-13 .. i`. -/
def rsiAt (closes : List ℚ) (i : ℕ) : Option ℚ :=
  if i < 14 ∨ closes.length ≤ i then none
  else some (rsiFromDiffs (((diffList closes).drop (i - 14)).take 14))

/-! ### Helper lemmas about the embedding -/

lemma trColumnAux_length (p : ℚ) (l : List Bar) : (trColumnAux p l).length = l.length := by
  induction l generalizing p with
  | nil => rfl
  | cons b rest ih => simp [trColumnAux, ih]

lemma trColumn_length (bars : List Bar) : (trColumn bars).length = bars.length := by
  cases bars with
  | nil => rfl
  | cons b rest => simp [trColumn, trColumnAux_length]

lemma trColumnAux_get?_succ (l : List Bar) (p : ℚ) (j : ℕ) (b bp : Bar)
    (hb : l.get? (j + 1) = some b) (hbp : l.get? j = some bp) :
    (trColumnAux p l).get? (j + 1) =
      some (max (b.high - b.low) (max |b.high - bp.close| |b.low - bp.close|)) := by
  induction l generalizing p j with
  | nil => cases hb
  | cons x xs ih =>
      cases j with
      | zero =>
          obtain rfl : x = bp := by
            simp only [List.get?_cons_zero, Option.some.injEq] at hbp
            exact hbp
          simp only [List.get?_cons_succ, List.get?_cons_zero] at hb
          cases xs with
          | nil => cases hb
          | cons y ys =>
              simp only [List.get?_cons_zero, Option.some.injEq] at hb
              subst hb
              rfl
      | succ k =>
          simp only [List.get?_cons_succ] at hb hbp
          show (trColumnAux x.close xs).get? (k + 1) = _
          exact ih x.close k hb hbp

lemma runLoop_fst (l : List SymbolInput) (n : ℕ) :
    (runLoop l n).1 = l.flatMap symbolEvents := by
  induction l generalizing n with
  | nil => rfl
  | cons x xs ih =>
      show symbolEvents x ++ (runLoop xs _).1 = _
      rw [ih, List.flatMap_cons]

lemma runLoop_snd (l : List SymbolInput) (n : ℕ) :
    (runLoop l n).2 = n + countAlerts l := by
  induction l generalizing n with
  | nil => simp [runLoop, countAlerts]
  | cons x xs ih =>
      show (runLoop xs (if (analyzeSymbol x).1 then n + 1 else n)).2 = _
      rw [ih]
      unfold countAlerts
      rw [List.filter_cons]
      cases hx : (analyzeSymbol x).1
      · simp [hx]
      · simp [hx]
        omega

lemma countP_summary_symbolEvents (inp : SymbolInput) :
    (symbolEvents inp).countP isSummary = 0 := by
  unfold symbolEvents
  cases (analyzeSymbol inp).2 <;> simp [List.countP_cons, isSummary]

lemma countP_summary_runLoop (l : List SymbolInput) (n : ℕ) :
    ((runLoop l n).1).countP isSummary = 0 := by
  induction l generalizing n with
  | nil => rfl
  | cons x xs ih =>
      show (symbolEvents x ++ (runLoop xs _).1).countP isSummary = 0
      rw [List.countP_append, ih, countP_summary_symbolEvents]

lemma filter_photo_flatMap (l : List SymbolInput) :
    (l.flatMap symbolEvents).filter isPhoto =
      (l.filter fun inp => (analyzeSymbol inp).2).map fun inp => Event.photo inp.name := by
  induction l with
  | nil => rfl
  | cons x xs ih =>
      rw [List.flatMap_cons, List.filter_append, ih, List.filter_cons]
      unfold symbolEvents
      cases hx : (analyzeSymbol x).2 <;> simp [isPhoto, hx]

lemma analyze_mem_runLoop (l : List SymbolInput) (n : ℕ) (s : SymbolInput) (hs : s ∈ l) :
    Event.analyze s.name ∈ (runLoop l n).1 := by
  induction l generalizing n with
  | nil => cases hs
  | cons x xs ih =>
      show Event.analyze s.name ∈ symbolEvents x ++ (runLoop xs _).1
      cases hs with
      | head => exact List.mem_append_left _ (List.mem_cons_self _ _)
      | tail _ hs => exact List.mem_append_right _ (ih _ hs)

lemma analyzeSymbol_ok (name : ℕ) (render : Bool) (bars : List Bar) :
    analyzeSymbol ⟨name, .ok bars, render⟩ =
      if bars = [] ∨ bars.length < 150 then (false, false)
      else logicChecks ⟨name, .ok bars, render⟩ (indicatorRows bars) := rfl

lemma analyzeSymbol_skip (name : ℕ) (render : Bool) (bars : List Bar)
    (h : bars.length < 150 ∨ indicatorRows bars = [] ∨ (indicatorRows bars).length < 6) :
    analyzeSymbol ⟨name, .ok bars, render⟩ = (false, false) := by
  rw [analyzeSymbol_ok]
  split_ifs with hg
  · rfl
  · unfold logicChecks
    split_ifs with h1 h2
    · rfl
    · rfl
    · exfalso
      push_neg at hg
      rcases h with h | h | h
      · omega
      · exact h1 h
      · exact h2 h

lemma analyzeSymbol_render_false (inp : SymbolInput) (h : inp.renderOk = false) :
    (analyzeSymbol inp).2 = false := by
  obtain ⟨name, fetch, render⟩ := inp
  cases fetch with
  | fail => rfl
  | ok bars =>
      rw [analyzeSymbol_ok]
      split_ifs with hg
      · rfl
      · unfold logicChecks
        split_ifs with h1 h2
        · rfl
        · rfl
        · rcases e1 : (indicatorRows bars).get? ((indicatorRows bars).length - 1) with _ | cur
          · rcases e2 : (indicatorRows bars).get? ((indicatorRows bars).length - 6) with _ | p
            · simp [e1, e2]
            · simp [e1, e2]
          · rcases e2 : (indicatorRows bars).get? ((indicatorRows bars).length - 6) with _ | p
            · simp [e1, e2]
            · simp only [e1, e2]
              split_ifs
              · exact h
              · rfl

lemma runScan_ok (l : List SymbolInput) (h : l ≠ []) :
    runScan (.ok l) = (runLoop l 0).1 ++ [Event.summaryText (runLoop l 0).2] := by
  unfold runScan get_sp500_tickers
  rw [if_neg h]

/-! ### Concrete inputs used by counterexamples and witnesses -/

/-- 155 closes: flat at 10000 for 141 bars, then rising by 1 for 14 bars.
The last close (10014) is within 5% of the last 150-bar mean (10000.7), and
every close-to-close difference in the trailing 14-bar window is +1. -/
def risingCloses : List ℚ :=
  (List.range 155).map fun i => ((if i < 141 then 10000 else 10000 + (i - 140) : ℕ) : ℚ)

/-- 155 closes: flat at 10000 for 141 bars, then falling by 1 for 14 bars. -/
def fallingCloses : List ℚ :=
  (List.range 155).map fun i => ((if i < 141 then 10000 else 10000 - (i - 140) : ℕ) : ℚ)

/-- Bars around a close series: high two above the close, low two below. -/
def barsOf (closes : List ℚ) : List Bar :=
  closes.map fun c => ⟨c + 2, c - 2, c⟩

/-- A qualifying symbol whose trailing closes rise. -/
def inpA : SymbolInput := ⟨0, .ok (barsOf risingCloses), true⟩

/-- A qualifying symbol whose trailing closes fall. -/
def inpB : SymbolInput := ⟨1, .ok (barsOf fallingCloses), true⟩

/-- 155 constant bars: the last close sits exactly on the moving average, so
the symbol qualifies. -/
def constBars : List Bar := List.replicate 155 ⟨10002, 9998, 10000⟩

/-- A history of 150 constant bars: long enough to pass the length guard and
produce exactly one valid indicator row. -/
def bars150 : List Bar := List.replicate 150 ⟨10002, 9998, 10000⟩

/-- A 10-bar history: well-formed but shorter than the 150-bar warm-up. -/
def shortBars : List Bar := List.replicate 10 ⟨10002, 9998, 10000⟩

/-- Sixteen strictly increasing closes: an all-gain series. -/
def gainCloses : List ℚ := (List.range 16).map fun n => (n : ℚ)

/-- A single bar, to evaluate the true-range column at row 0. -/
def oneBar : Bar := ⟨5, 3, 4⟩

/-- A second bar, to evaluate the true-range column at row 1. -/
def twoBar : Bar := ⟨6, 3, 5⟩

/-- Fourteen constant bars: enough for the first ATR cell of the code. -/
def bars14 : List Bar := List.replicate 14 oneBar

/-! ### Claim theorems -/

/-- Claim C1, counterexample. The claim says a row whose `distance_pct`
exceeds 0.025 never qualifies, whatever the RSI; in the code the
qualification decision (line 199) is `dist_pct <= 0.05` and consults no RSI,
so the row `close = 10400`, `sma_long = 10000 > 0` has
`distance_pct = 0.04 > 0.025` and still qualifies. -/
theorem c1_counterexample :
    qualifies 10400 10000 = true ∧ (25 / 1000 : ℚ) < distPct 10400 10000 ∧
      (0 : ℚ) < 10000 := by
  with_unfolding_all decide

/-- Claim C1, amended: for `sma_long_current > 0` the qualification decision
is true if and only if `|close - sma_long| ≤ sma_long * 0.05`, i.e.
`distance_pct ≤ 0.05`; there is no momentum filter — the code computes no
RSI, so RSI plays no role in the decision. -/
theorem c1_amended (close sma : ℚ) (h : 0 < sma) :
    qualifies close sma = true ↔ |close - sma| ≤ sma * (5 / 100) := by
  unfold qualifies distPct
  rw [decide_eq_true_iff, div_le_iff₀ h, mul_comm]

/-- Witness for `c1_amended` at `close = 10400`, `sma = 10000`. -/
theorem c1_amended_witness :
    (0 : ℚ) < 10000 ∧
      (qualifies 10400 10000 = true ↔
        |(10400 : ℚ) - 10000| ≤ 10000 * (5 / 100)) :=
  ⟨by norm_num, c1_amended 10400 10000 (by norm_num)⟩

/-- Claim C5: if the universe retrieval fails, `run_scan` sends exactly the
single failure message of line 145 — no analysis event, no photo dispatch —
and returns. (`get_sp500_tickers` maps its caught exceptions to the empty
list, which line 144 turns into the failure branch.) -/
theorem c5_universe_failure : runScan (.error ()) = [Event.failText] := by
  with_unfolding_all decide

/-- Claim C8: for `prior > 0` the trend classifier (lines 190-195) yields
`Up` iff `current > prior * 1.005`, `Down` iff `current < prior * 0.995`,
and `Flat` otherwise; since it is a function into the three labels, exactly
one outcome is produced. -/
theorem c8_trend_classifier (current prior : ℚ) (h : 0 < prior) :
    (classifyTrend current prior = .up ↔ prior * (1005 / 1000) < current) ∧
      (classifyTrend current prior = .down ↔ current < prior * (995 / 1000)) ∧
      (classifyTrend current prior = .flat ↔
        current ≤ prior * (1005 / 1000) ∧ prior * (995 / 1000) ≤ current) := by
  unfold classifyTrend
  have hlt : prior * (995 / 1000) < prior * (1005 / 1000) := by
    have h995 : (995 / 1000 : ℚ) < 1005 / 1000 := by norm_num
    exact (mul_lt_mul_left h).2 h995
  split_ifs with h1 h2
  · exact ⟨iff_of_true rfl h1,
      iff_of_false (by decide) (by intro hc; linarith),
      iff_of_false (by decide) (by rintro ⟨hc, _⟩; linarith)⟩
  · exact ⟨iff_of_false (by decide) h1,
      iff_of_true rfl h2,
      iff_of_false (by decide) (by rintro ⟨_, hc⟩; linarith)⟩
  · exact ⟨iff_of_false (by decide) h1,
      iff_of_false (by decide) h2,
      iff_of_true rfl ⟨le_of_not_lt h1, le_of_not_lt h2⟩⟩

/-- Witness for `c8_trend_classifier` at `current = 102`, `prior = 100`. -/
theorem c8_witness :
    (0 : ℚ) < 100 ∧
      ((classifyTrend 102 100 = .up ↔ (100 : ℚ) * (1005 / 1000) < 102) ∧
        (classifyTrend 102 100 = .down ↔ (102 : ℚ) < 100 * (995 / 1000)) ∧
        (classifyTrend 102 100 = .flat ↔
          (102 : ℚ) ≤ 100 * (1005 / 1000) ∧ (100 : ℚ) * (995 / 1000) ≤ 102)) :=
  ⟨by norm_num, c8_trend_classifier 102 100 (by norm_num)⟩

/-- Claim C6: a well-formed history shorter than the 150-bar warm-up yields
zero valid indicator rows (every `SMA_150` cell is NaN, so the cleanup of
line 179 drops every row), and the loop body skips the symbol with no
error: the empty history and the short history both take the `continue` of
line 166. -/
theorem c6_short_series (bars : List Bar) (name : ℕ) (render : Bool)
    (h : bars.length < 150) :
    indicatorRows bars = [] ∧ analyzeSymbol ⟨name, .ok bars, render⟩ = (false, false) := by
  constructor
  · unfold indicatorRows
    rw [List.filterMap_eq_nil_iff]
    intro i hi
    have hi2 : i < bars.length := List.mem_range.mp hi
    have hs : smaAt bars i = none := by
      unfold smaAt windowMean
      rw [if_pos]
      left
      omega
    rw [hs]
  · rw [analyzeSymbol_ok, if_pos (Or.inr h)]

/-- Witness for `c6_short_series` at the 10-bar constant history. -/
theorem c6_witness :
    shortBars.length < 150 ∧
      (indicatorRows shortBars = [] ∧
        analyzeSymbol ⟨0, .ok shortBars, true⟩ = (false, false)) :=
  ⟨by with_unfolding_all decide, c6_short_series shortBars 0 true (by with_unfolding_all decide)⟩

/-- Claim C7 (spec-modelled: `src/main.py` contains no RSI computation; the
observer `rsiAt` follows spec §4.1). At any index where the RSI is defined,
if every close-to-close difference in the trailing 14-bar window is
non-negative — with at least one strictly positive — then the trailing
average loss is zero and the RSI is exactly 100 through the explicit
`avg_loss = 0` branch; no division fault can occur, the branch guards the
division. -/
theorem c7_rsi_all_gain (closes : List ℚ) (i : ℕ)
    (h14 : 14 ≤ i) (hlen : i < closes.length)
    (hpos : ∀ d ∈ ((diffList closes).drop (i - 14)).take 14, 0 ≤ d)
    (_hone : ∃ d ∈ ((diffList closes).drop (i - 14)).take 14, 0 < d) :
    rsiAt closes i = some 100 := by
  unfold rsiAt
  rw [if_neg (by push_neg; omega)]
  congr 1
  unfold rsiFromDiffs
  have hz : ((((diffList closes).drop (i - 14)).take 14).map fun d => max (-d) 0).sum = 0 := by
    apply List.sum_eq_zero
    intro x hx
    rcases List.mem_map.mp hx with ⟨d, hd, rfl⟩
    have hd0 := hpos d hd
    exact max_eq_right (by linarith)
  rw [hz]
  norm_num

/-- Witness for `c7_rsi_all_gain` on sixteen strictly increasing closes. -/
theorem c7_witness :
    14 ≤ 14 ∧ 14 < gainCloses.length ∧
      (∀ d ∈ ((diffList gainCloses).drop (14 - 14)).take 14, 0 ≤ d) ∧
      (∃ d ∈ ((diffList gainCloses).drop (14 - 14)).take 14, 0 < d) ∧
      rsiAt gainCloses 14 = some 100 :=
  ⟨by norm_num, by with_unfolding_all decide, by with_unfolding_all decide,
    by with_unfolding_all decide,
    c7_rsi_all_gain gainCloses 14 (by norm_num) (by with_unfolding_all decide)
      (by with_unfolding_all decide) (by with_unfolding_all decide)⟩

/-- Claim C10: when the cleaned frame has between 1 and 5 valid rows, the
`iloc[-6]` lookup of line 186 raises `IndexError`, the handler of line 218
absorbs it, and the symbol produces neither a count nor an alert; hence a
dispatched alert requires at least 6 valid rows, not the single valid row
the spec asks for. -/
theorem c10_six_valid_rows :
    (∀ (name : ℕ) (render : Bool) (bars : List Bar),
        1 ≤ (indicatorRows bars).length → (indicatorRows bars).length ≤ 5 →
        analyzeSymbol ⟨name, .ok bars, render⟩ = (false, false)) ∧
      (∀ inp : SymbolInput, (analyzeSymbol inp).2 = true →
        ∃ bars, inp.fetch = .ok bars ∧ 6 ≤ (indicatorRows bars).length) := by
  constructor
  · intro name render bars h1 h5
    exact analyzeSymbol_skip name render bars (Or.inr (Or.inr (by omega)))
  · intro inp h
    obtain ⟨name, fetch, render⟩ := inp
    cases fetch with
    | fail => cases h
    | ok bars =>
        refine ⟨bars, rfl, ?_⟩
        rw [analyzeSymbol_ok] at h
        by_cases hg : bars = [] ∨ bars.length < 150
        · rw [if_pos hg] at h
          cases h
        · rw [if_neg hg] at h
          unfold logicChecks at h
          by_cases hnil : indicatorRows bars = []
          · rw [if_pos hnil] at h
            cases h
          · rw [if_neg hnil] at h
            by_cases hlt : (indicatorRows bars).length < 6
            · rw [if_pos hlt] at h
              cases h
            · omega

/-- Witness for `c10_six_valid_rows`: the 150-bar constant history has
exactly one valid row and is skipped; the rising 155-bar history dispatches
and indeed has 6 valid rows. -/
theorem c10_witness :
    (1 ≤ (indicatorRows bars150).length ∧ (indicatorRows bars150).length ≤ 5 ∧
        analyzeSymbol ⟨0, .ok bars150, true⟩ = (false, false)) ∧
      ((analyzeSymbol inpA).2 = true ∧
        ∃ bars, inpA.fetch = .ok bars ∧ 6 ≤ (indicatorRows bars).length) :=
  ⟨⟨by with_unfolding_all decide, by with_unfolding_all decide,
      c10_six_valid_rows.1 0 true bars150 (by with_unfolding_all decide)
        (by with_unfolding_all decide)⟩,
    ⟨by with_unfolding_all decide,
      c10_six_valid_rows.2 inpA (by with_unfolding_all decide)⟩⟩

/-- The per-symbol failure modes the handler of line 218 (or an inner guard)
absorbs: a raising fetch (also covering malformed data), an empty or
too-short history, a history whose cleaned frame is empty or has too few
rows for the `iloc[-6]` lookup, or a raising chart render. -/
def analysisFails (inp : SymbolInput) : Prop :=
  inp.fetch = .fail ∨
    (∃ bars, inp.fetch = .ok bars ∧
      (bars.length < 150 ∨ indicatorRows bars = [] ∨ (indicatorRows bars).length < 6)) ∨
    inp.renderOk = false

/-- Claim C4: a failure while analyzing one symbol only suppresses that
symbol's alert — the failing symbol dispatches no photo, every symbol of
the universe still gets its analysis iteration, and the run still sends
exactly one summary message, which is the last event of the run. -/
theorem c4_isolation (l : List SymbolInput) (inp : SymbolInput)
    (hmem : inp ∈ l) (hfail : analysisFails inp) :
    (analyzeSymbol inp).2 = false ∧
      (∀ s ∈ l, Event.analyze s.name ∈ runScan (.ok l)) ∧
      (runScan (.ok l)).countP isSummary = 1 ∧
      (runScan (.ok l)).getLast? = some (Event.summaryText (countAlerts l)) := by
  have hne : l ≠ [] := by
    intro hl
    rw [hl] at hmem
    cases hmem
  have hrs := runScan_ok l hne
  refine ⟨?_, ?_, ?_, ?_⟩
  · rcases hfail with hf | ⟨bars, hb, hcase⟩ | hr
    · obtain ⟨name, fetch, render⟩ := inp
      simp only at hf
      rw [hf]
      rfl
    · obtain ⟨name, fetch, render⟩ := inp
      simp only at hb
      rw [hb]
      rw [analyzeSymbol_skip name render bars hcase]
    · exact analyzeSymbol_render_false inp hr
  · intro s hs
    rw [hrs]
    exact List.mem_append_left _ (analyze_mem_runLoop l 0 s hs)
  · rw [hrs, List.countP_append, countP_summary_runLoop]
    simp [List.countP_cons, isSummary]
  · rw [hrs, List.getLast?_concat, runLoop_snd, Nat.zero_add]

/-- Witness for `c4_isolation`: a two-symbol universe whose first symbol's
fetch raises. -/
theorem c4_witness :
    (⟨0, .fail, true⟩ : SymbolInput) ∈
        [(⟨0, .fail, true⟩ : SymbolInput), ⟨1, .ok [], true⟩] ∧
      analysisFails ⟨0, .fail, true⟩ ∧
      ((analyzeSymbol ⟨0, .fail, true⟩).2 = false ∧
        (∀ s ∈ [(⟨0, .fail, true⟩ : SymbolInput), ⟨1, .ok [], true⟩],
          Event.analyze s.name ∈
            runScan (.ok [(⟨0, .fail, true⟩ : SymbolInput), ⟨1, .ok [], true⟩])) ∧
        (runScan (.ok [(⟨0, .fail, true⟩ : SymbolInput), ⟨1, .ok [], true⟩])).countP
            isSummary = 1 ∧
        (runScan (.ok [(⟨0, .fail, true⟩ : SymbolInput), ⟨1, .ok [], true⟩])).getLast? =
          some (Event.summaryText
            (countAlerts [(⟨0, .fail, true⟩ : SymbolInput), ⟨1, .ok [], true⟩]))) :=
  ⟨by decide, Or.inl rfl,
    c4_isolation [⟨0, .fail, true⟩, ⟨1, .ok [], true⟩] ⟨0, .fail, true⟩
      (by decide) (Or.inl rfl)⟩

/-- Claim C2, counterexample. In one run over the universe `[inpA, inpB]`
both symbols qualify and the photos are dispatched in scan order
`[photo 0, photo 1]`; yet the current-row RSI (the spec's `rank_key`,
spec-modelled since the code computes none) of symbol 0 is 100 and that of
symbol 1 is 0, so the dispatch order is strictly decreasing in `rank_key`:
the code sends alerts in scan order, not sorted by RSI. -/
theorem c2_counterexample :
    (runScan (.ok [inpA, inpB])).filter isPhoto =
        [Event.photo 0, Event.photo 1] ∧
      rsiAt risingCloses 154 = some 100 ∧ rsiAt fallingCloses 154 = some 0 := by
  with_unfolding_all decide

/-- Claim C2, amended: the dispatch order is exactly the original scan order
of the qualifying symbols — the photo events of a run are the qualifying
symbols' photos in universe order; no ranking by RSI (or anything else)
happens, since alerts are sent inline as each symbol qualifies. -/
theorem c2_amended (l : List SymbolInput) :
    (runScan (.ok l)).filter isPhoto =
      (l.filter fun inp => (analyzeSymbol inp).2).map fun inp => Event.photo inp.name := by
  by_cases hl : l = []
  · subst hl
    rfl
  · rw [runScan_ok l hl, List.filter_append, runLoop_fst, filter_photo_flatMap]
    show _ ++ List.filter isPhoto [Event.summaryText _] = _
    rw [show List.filter isPhoto [Event.summaryText (runLoop l 0).2] = [] from rfl,
      List.append_nil]

/-- Claim C3, counterexample. With the universe `[constBars symbol, failing
symbol]`, the qualifying first symbol's photo is dispatched (trace position
1) before the second symbol's analysis starts (trace position 2): dispatch
is interleaved with the scan, there is no barrier. -/
theorem c3_counterexample :
    runScan (.ok [⟨0, .ok constBars, true⟩, ⟨1, .fail, true⟩]) =
      [Event.analyze 0, Event.photo 0, Event.analyze 1, Event.summaryText 1] := by
  with_unfolding_all decide

/-- Claim C3, amended: each alert is dispatched immediately when its symbol
qualifies, inside that symbol's loop iteration — the run trace is the
concatenation of per-symbol blocks (analysis start, then the symbol's photo
if it dispatches) followed by the single summary; only the summary is
guaranteed to come after all analyses. -/
theorem c3_amended (l : List SymbolInput) (h : l ≠ []) :
    runScan (.ok l) =
      l.flatMap symbolEvents ++ [Event.summaryText (countAlerts l)] := by
  rw [runScan_ok l h, runLoop_fst, runLoop_snd, Nat.zero_add]

/-- Witness for `c3_amended` at a one-symbol universe with a failing
fetch. -/
theorem c3_amended_witness :
    ([(⟨0, .fail, true⟩ : SymbolInput)] ≠ []) ∧
      runScan (.ok [(⟨0, .fail, true⟩ : SymbolInput)]) =
        [(⟨0, .fail, true⟩ : SymbolInput)].flatMap symbolEvents ++
          [Event.summaryText (countAlerts [(⟨0, .fail, true⟩ : SymbolInput)])] :=
  ⟨by decide, c3_amended [⟨0, .fail, true⟩] (by decide)⟩

/-- Claim C9, counterexample. The claim says true range is undefined at
row 0 and the ATR needs 14 defined trailing true ranges (first defined at
row 14). In the code, however, `TR[0]` is defined — pandas
`DataFrame.max(axis=1)` skips the two NaN comparands of row 0 and returns
`High[0] - Low[0] = 2` — and consequently the ATR is already defined at
row 13 of a 14-bar history. -/
theorem c9_counterexample :
    (trColumn [oneBar]).get? 0 = some 2 ∧ atrAt bars14 13 = some 2 := by
  with_unfolding_all decide

/-- Claim C9, amended: for `i ≥ 1` the true range at `i` is
`max(high[i]-low[i], |high[i]-close[i-1]|, |low[i]-close[i-1]|)` as the
claim says, but at `i = 0` it is the defined value `high[0]-low[0]` (the
NaN comparands are skipped by the row-wise max); the ATR at `i` is the
arithmetic mean of the trailing 14 true-range cells and is defined exactly
for `13 ≤ i < n`, not only from the 15th bar on. -/
theorem c9_amended (bars : List Bar) :
    (∀ i b bp, bars.get? (i + 1) = some b → bars.get? i = some bp →
        (trColumn bars).get? (i + 1) =
          some (max (b.high - b.low) (max |b.high - bp.close| |b.low - bp.close|))) ∧
      (∀ b, bars.get? 0 = some b → (trColumn bars).get? 0 = some (b.high - b.low)) ∧
      (∀ i, (atrAt bars i).isSome ↔ 13 ≤ i ∧ i < bars.length) ∧
      (∀ i, 13 ≤ i → i < bars.length →
        atrAt bars i = some ((((trColumn bars).drop (i - 13)).take 14).sum / 14)) := by
  refine ⟨?_, ?_, ?_, ?_⟩
  · intro i b bp hb hbp
    cases bars with
    | nil => cases hb
    | cons x xs =>
        show (trColumnAux x.close xs).get? i = _
        simp only [List.get?_cons_succ] at hb
        cases i with
        | zero =>
            obtain rfl : x = bp := by
              simp only [List.get?_cons_zero, Option.some.injEq] at hbp
              exact hbp
            cases xs with
            | nil => cases hb
            | cons y ys =>
                simp only [List.get?_cons_zero, Option.some.injEq] at hb
                subst hb
                rfl
        | succ k =>
            simp only [List.get?_cons_succ] at hbp
            exact trColumnAux_get?_succ xs x.close k b bp hb hbp
  · intro b hb
    cases bars with
    | nil => cases hb
    | cons x xs =>
        obtain rfl : x = b := by
          simp only [List.get?_cons_zero, Option.some.injEq] at hb
          exact hb
        rfl
  · intro i
    unfold atrAt windowMean
    rw [trColumn_length]
    split_ifs with hc
    · simp only [Option.isSome_none, Bool.false_eq_true, false_iff]
      omega
    · simp only [Option.isSome_some, true_iff]
      push_neg at hc
      omega
  · intro i h13 hlen
    unfold atrAt windowMean
    rw [if_neg]
    · rw [show i + 1 - 14 = i - 13 from by omega]
      norm_num
    · push_neg
      rw [trColumn_length]
      omega

/-- Witness for `c9_amended`: the true-range cells of a two-bar history and
the first ATR cell of a 14-bar history. -/
theorem c9_amended_witness :
    (trColumn [oneBar, twoBar]).get? 1 =
        some (max (twoBar.high - twoBar.low)
          (max |twoBar.high - oneBar.close| |twoBar.low - oneBar.close|)) ∧
      (trColumn [oneBar, twoBar]).get? 0 = some (oneBar.high - oneBar.low) ∧
      ((atrAt bars14 13).isSome ↔ 13 ≤ 13 ∧ 13 < bars14.length) ∧
      atrAt bars14 13 = some ((((trColumn bars14).drop (13 - 13)).take 14).sum / 14) :=
  ⟨(c9_amended [oneBar, twoBar]).1 0 twoBar oneBar rfl rfl,
    (c9_amended [oneBar, twoBar]).2.1 oneBar rfl,
    (c9_amended bars14).2.2.1 13,
    (c9_amended bars14).2.2.2 13 (by norm_num) (by with_unfolding_all decide)⟩
